import Mathlib

/-!
Verification development for the FriendZone marketplace application
(server wiring in `src/server/index.js`, three client variants of the
authentication/session subsystem in `src/server/index.js` and
`src/unnamed/part_000`).

The embedding models:
* the browser `localStorage` persistence layer (`Storage` with
  `getItem` / `setItem` / `removeItem`),
* the client `AuthContext` variants (`login` / `logout` in the first
  variant, `setAndPersistToken` in the second, the
  `isAuthenticated`-flag provider of `src/unnamed/part_000`),
* the request builders of the components and of `src/services/api.ts`,
* the express route table of `src/server/index.js`, and
* the server-side Credential Issuer and Access Guard, which are imported
  by `src/server/index.js` (`./controllers/auth.js`,
  `./middleware/auth.js`) but whose files are not part of the sources;
  these are modelled from the spec where noted.
-/

/-! ## Browser localStorage (client persistence) -/

/-- A snapshot of the browser `localStorage` for one origin: an
association list from keys to stored strings. -/
abbrev Storage := List (String × String)

/-- `localStorage.getItem(k)`: the value stored under `k`, if any. -/
def getItem (s : Storage) (k : String) : Option String :=
  (s.find? (fun p => p.1 == k)).map (fun p => p.2)

/-- `localStorage.setItem(k, v)`: store `v` under `k`, replacing any
previous binding for `k`. -/
def setItem (s : Storage) (k v : String) : Storage :=
  (k, v) :: s.filter (fun p => p.1 != k)

/-- `localStorage.removeItem(k)`: drop any binding for `k`. -/
def removeItem (s : Storage) (k : String) : Storage :=
  s.filter (fun p => p.1 != k)

/-! ## Client session state (AuthContext variants) -/

/-- The client-side authentication state of the `AuthContext` variants
that keep the token in React state alongside `localStorage`: the
`token` state value and the persistence snapshot. -/
structure ClientAuthState where
  token : Option String
  storage : Storage
deriving Repr, DecidableEq

/-- Second `AuthContext` variant (`src/server/index.js`,
`setAndPersistToken`): `setToken(token)` then `setItem` under the key
`token` when the argument is non-null, `removeItem` of that key when
it is null. -/
def setAndPersistToken (c : ClientAuthState) (t : Option String) : ClientAuthState :=
  match t with
  | some tok => { token := some tok, storage := setItem c.storage "token" tok }
  | none => { token := none, storage := removeItem c.storage "token" }

/-- What a fresh read of the second variant Session Store observes:
the value persisted under the key `token`. -/
def sessionGet (c : ClientAuthState) : Option String :=
  getItem c.storage "token"

/-- First `AuthContext` variant (`src/server/index.js`, `login`):
`setToken(token)` and `localStorage.setItem` under the key
`authToken`. -/
def loginV1 (c : ClientAuthState) (t : String) : ClientAuthState :=
  { token := some t, storage := setItem c.storage "authToken" t }

/-! ## Session Gate (client presentation state) -/

/-- The Session Gate two states. -/
inductive GateState
  | anonymous
  | authenticated
deriving Repr, DecidableEq

/-- Gate state as the client variants derive it: `ProtectedRoute`
renders the protected children exactly when the context `token` is
non-null (`if (!token) return <Navigate ... />`). -/
def gateOfToken (t : Option String) : GateState :=
  match t with
  | some _ => GateState.authenticated
  | none => GateState.anonymous

/-- First `AuthContext` variant: the initial `useState` value is
`localStorage.getItem` of `authToken`, read synchronously at provider
construction. -/
def authProviderInitV1 (s : Storage) : Option String :=
  getItem s "authToken"

/-- Client state of the `src/unnamed/part_000` `AuthContext` variant:
a boolean `isAuthenticated` flag plus the persistence snapshot. -/
structure AuthV3State where
  isAuthenticated : Bool
  storage : Storage
deriving Repr, DecidableEq

/-- `src/unnamed/part_000` `AuthProvider`: `useState(false)` gives the
pre-effect flag value. -/
def authV3Initial : Bool := false

/-- The mount effect of the `src/unnamed/part_000` `AuthProvider`:
`setIsAuthenticated(!!token)` with the token read from the store. -/
def authV3MountEffect (st : AuthV3State) : AuthV3State :=
  { st with isAuthenticated := (getItem st.storage "token").isSome }

/-- Process start of the `src/unnamed/part_000` client: initial state
`false`, then the mount effect reads the store. -/
def authV3Start (s : Storage) : AuthV3State :=
  authV3MountEffect { isAuthenticated := authV3Initial, storage := s }

/-- `src/services/api.ts` `login` persistence effect on success:
`localStorage.setItem` of the response token under the key `token`. -/
def apiLoginPersist (s : Storage) (tok : String) : Storage :=
  setItem s "token" tok

/-! ## Dashboard fetch handling -/

/-- An item record as the client types it
(`interface Item` in `Dashboard.tsx` / `ItemList.tsx`). -/
structure Item where
  mongoId : String
  name : String
  description : String
  price : Int
  image : String
  userId : String
deriving Repr, DecidableEq

/-- The outcome of an awaited `fetch` as the components branch on it:
`response.ok` with parsed data, a non-ok response with status and an
optional `data.message`, or a thrown network error. -/
inductive ApiResponse (α : Type)
  | ok (data : α)
  | err (status : Nat) (message : Option String)
  | thrown
deriving Repr, DecidableEq

/-- State of the `Dashboard` component: the item list, the inline
error message, and the `useAuth` context state it sees. -/
structure DashboardState where
  items : List Item
  error : String
  auth : ClientAuthState
deriving Repr, DecidableEq

/-- `Dashboard.fetchItems` response handling (identical in both
`index.js` client variants): on `response.ok` store the data with
`setItems(data)`; otherwise `setError` with `data.message` or the
fallback message `Failed to fetch items`; on a thrown error `setError`
with the network-error message. No branch touches the auth context or
`localStorage`. -/
def fetchItemsHandler (st : DashboardState) (resp : ApiResponse (List Item)) :
    DashboardState :=
  match resp with
  | ApiResponse.ok data => { st with items := data }
  | ApiResponse.err _ m => { st with error := m.getD "Failed to fetch items" }
  | ApiResponse.thrown => { st with error := "An error occurred. Please try again." }

/-- A concrete authenticated Dashboard state: the store and the context
both hold the token `tok0`. -/
def dashState0 : DashboardState :=
  { items := []
    error := ""
    auth := { token := some "tok0", storage := [("authToken", "tok0")] } }

/-! ## HTTP requests built by the client -/

/-- The parts of an outgoing HTTP request the claims are about: method,
URL and headers (request bodies play no role in any claim and are not
modelled). -/
structure Request where
  method : String
  url : String
  headers : List (String × String)
deriving Repr, DecidableEq

/-- JavaScript template-literal interpolation of a possibly-null
string: `null` prints as the four characters `null`. -/
def jsStringOfOption (t : Option String) : String :=
  t.getD "null"

/-- `Dashboard.fetchItems` request (both `index.js` client variants):
`GET /api/items` with a Bearer `Authorization` header holding the
token from the `useAuth` context. -/
def dashboardFetchItemsRequest (token : String) : Request :=
  { method := "GET"
    url := "http://localhost:5000/api/items"
    headers := [("Authorization", "Bearer " ++ token)] }

/-- `TransactionList.fetchTransactions` request (both `index.js`
client variants): `GET /api/transactions` with the Bearer header from
the `useAuth` context. -/
def transactionsFetchRequest (token : String) : Request :=
  { method := "GET"
    url := "http://localhost:5000/api/transactions"
    headers := [("Authorization", "Bearer " ++ token)] }

/-- `AddItem.handleSubmit` request in the first `index.js` variant:
`POST /api/items` with Content-Type and the Bearer header from the
`useAuth` context. -/
def addItemRequestV1 (token : String) : Request :=
  { method := "POST"
    url := "http://localhost:5000/api/items"
    headers := [("Content-Type", "application/json"),
                ("Authorization", "Bearer " ++ token)] }

/-- `AddItem.handleSubmit` request in the second `index.js` variant:
the Bearer value is read directly from `localStorage.getItem` of the
key `token` (interpolated, so a missing token yields `Bearer null`). -/
def addItemRequestV2 (s : Storage) : Request :=
  { method := "POST"
    url := "http://localhost:5000/api/items"
    headers := [("Content-Type", "application/json"),
                ("Authorization", "Bearer " ++ jsStringOfOption (getItem s "token"))] }

/-- `ItemList.handleDelete` request in the second `index.js` variant:
DELETE of the item URL with the Bearer value read directly from
`localStorage.getItem` of the key `token`. -/
def deleteItemRequest (s : Storage) (id : String) : Request :=
  { method := "DELETE"
    url := "http://localhost:5000/api/items/" ++ id
    headers := [("Authorization", "Bearer " ++ jsStringOfOption (getItem s "token"))] }

/-- `src/services/api.ts` `fetchItems`: `axios.get` of `/items` with no
config object, hence no `Authorization` header. -/
def apiFetchItemsRequest : Request :=
  { method := "GET"
    url := "http://localhost:5000/api/items"
    headers := [] }

/-- `src/services/api.ts` `addItem`: `axios.post` of `/items` with the
item body and no headers config, hence no `Authorization` header. -/
def apiAddItemRequest : Request :=
  { method := "POST"
    url := "http://localhost:5000/api/items"
    headers := [] }

/-- `src/services/api.ts` `fetchTransactions`: `axios.get` of
`/transactions` with no config, hence no `Authorization` header. -/
def apiFetchTransactionsRequest : Request :=
  { method := "GET"
    url := "http://localhost:5000/api/transactions"
    headers := [] }

/-- Whether a request carries a Bearer `Authorization` header for the
token `t`. -/
def hasBearerFor (r : Request) (t : String) : Bool :=
  r.headers.any (fun p => p.1 == "Authorization" && p.2 == "Bearer " ++ t)

/-- Whether a request carries any `Authorization` header at all. -/
def hasAuthHeader (r : Request) : Bool :=
  r.headers.any (fun p => p.1 == "Authorization")

/-! ## Server route table -/

/-- One stage of an express route pipeline, as wired in
`src/server/index.js`. -/
inductive Stage
  | verifyToken
  | uploadSingle (field : String)
  | handler (name : String)
  | staticFiles (dir : String)
deriving Repr, DecidableEq

/-- An express route: method, mount path, middleware pipeline. -/
structure Route where
  method : String
  path : String
  pipeline : List Stage
deriving Repr, DecidableEq

/-- The registration route of `src/server/index.js`: upload middleware
then the register handler — no guard stage. -/
def registerRoute : Route :=
  { method := "POST"
    path := "/auth/register"
    pipeline := [Stage.uploadSingle "picture", Stage.handler "register"] }

/-- The post-creation route of `src/server/index.js`: the guard runs
first, then upload middleware, then the createPost handler. -/
def createPostRoute : Route :=
  { method := "POST"
    path := "/posts"
    pipeline := [Stage.verifyToken, Stage.uploadSingle "picture",
                 Stage.handler "createPost"] }

/-- The static asset route of `src/server/index.js` (`express.static`
mounted at `/assets`) — no guard stage. -/
def assetsRoute : Route :=
  { method := "GET"
    path := "/assets"
    pipeline := [Stage.staticFiles "public/assets"] }

/-- Modelled from the spec: the login route lives in `./routes/auth.js`,
which is imported by `src/server/index.js` but absent from the sources;
per the spec, `POST /auth/login` is inherently public and bypasses the
guard entirely. -/
def loginRoute : Route :=
  { method := "POST"
    path := "/auth/login"
    pipeline := [Stage.handler "login"] }

/-- Modelled from the spec: the items-write route is served by code
absent from the sources; per the spec, POST on items is a protected
route requiring the Bearer guard. -/
def itemsCreateRoute : Route :=
  { method := "POST"
    path := "/api/items"
    pipeline := [Stage.verifyToken, Stage.handler "createItem"] }

/-- Modelled from the spec: the items-delete route is served by code
absent from the sources; per the spec, DELETE on items is a protected
route requiring the guard. -/
def itemsDeleteRoute : Route :=
  { method := "DELETE"
    path := "/api/items/:id"
    pipeline := [Stage.verifyToken, Stage.handler "deleteItem"] }

/-- Modelled from the spec: the transaction-listing route is served by
code absent from the sources; per the spec it is protected and guarded. -/
def transactionsRoute : Route :=
  { method := "GET"
    path := "/api/transactions"
    pipeline := [Stage.verifyToken, Stage.handler "listTransactions"] }

/-- The server route table: the three routes wired directly in
`src/server/index.js`, plus the spec-modelled routes mounted through
routers whose files are absent from the sources. -/
def serverRoutes : List Route :=
  [registerRoute, createPostRoute, assetsRoute, loginRoute,
   itemsCreateRoute, itemsDeleteRoute, transactionsRoute]

/-- Whether a route pipeline contains the Access Guard stage. -/
def hasGuard (r : Route) : Bool :=
  r.pipeline.contains Stage.verifyToken

/-- Whether a route reads or mutates a protected resource (post
creation, items write/delete, transaction listing), identified by its
terminal handler. -/
def isProtectedResourceRoute (r : Route) : Bool :=
  r.pipeline.any (fun st =>
    match st with
    | Stage.handler n =>
        ["createPost", "createItem", "deleteItem", "listTransactions"].contains n
    | _ => false)

/-- Whether a route is inherently public: login, registration, or
static asset fetch. -/
def isPublicRoute (r : Route) : Bool :=
  r.pipeline.any (fun st =>
    match st with
    | Stage.handler n => ["login", "register"].contains n
    | Stage.staticFiles _ => true
    | _ => false)

/-- The guard-placement invariant for one route: protected-resource
routes have the guard in their pipeline, public routes have no guard
stage at all. -/
def routeGuardInvariant (r : Route) : Bool :=
  (!(isProtectedResourceRoute r) || hasGuard r) &&
  (!(isPublicRoute r) || !(hasGuard r))

/-! ## Credential Issuer and Access Guard (server) -/

/-- Modelled from the spec: the server-held signing scheme. The real
signing lives in `./controllers/auth.js` / `./middleware/auth.js`,
imported by `src/server/index.js` but absent from the sources. Per the
spec a token signature is verifiable only with the issuing secret; we
model the signature as a function of the secret and the payload
fields. -/
def sign (secret subject : String) (issuedAt expiry : Nat) : String :=
  secret ++ "|" ++ subject ++ "|" ++ toString issuedAt ++ "|" ++ toString expiry

/-- A signed bearer token: subject, issued-at, expiry, signature. -/
structure Token where
  subject : String
  issuedAt : Nat
  expiry : Nat
  signature : String
deriving Repr, DecidableEq

/-- Modelled from the spec: the Credential Issuer token construction
(`./controllers/auth.js` is absent from the sources): subject = the
user identifier, issued-at = current time, expiry = issued-at plus a
fixed session lifetime, signed with the server secret. -/
def issueToken (secret subject : String) (now lifetime : Nat) : Token :=
  { subject := subject
    issuedAt := now
    expiry := now + lifetime
    signature := sign secret subject now (now + lifetime) }

/-- Outcome of the Access Guard. -/
inductive AuthResult
  | identity (subject : String)
  | unauthenticated
deriving Repr, DecidableEq

/-- Modelled from the spec: the Access Guard `verifyToken`
(`./middleware/auth.js` is absent from the sources): verify the
signature against the server secret (fail Unauthenticated on
mismatch), then fail Unauthenticated if the current time is at or past
the expiry, else yield the subject. -/
def authorize (secret : String) (tok : Token) (now : Nat) : AuthResult :=
  if tok.signature = sign secret tok.subject tok.issuedAt tok.expiry then
    if now < tok.expiry then AuthResult.identity tok.subject
    else AuthResult.unauthenticated
  else AuthResult.unauthenticated

/-- A stored user record: identifier, per-record salt, salted one-way
password hash. -/
structure UserRecord where
  identifier : String
  salt : String
  hashedPassword : String
deriving Repr, DecidableEq

/-- Modelled from the spec: the one-way salted password hash used by
the absent `./controllers/auth.js`; modelled as an injective tagging
of salt and password. -/
def hashPassword (salt pw : String) : String :=
  "H(" ++ salt ++ "," ++ pw ++ ")"

/-- `UserStore.findByIdentifier`: exactly the first record whose
identifier matches. -/
def findByIdentifier (store : List UserRecord) (id : String) : Option UserRecord :=
  store.find? (fun u => u.identifier == id)

/-- The single failure message for login, identical for a missing user
and for a wrong password. -/
def invalidCredentialMessage : String := "Invalid credentials."

/-- The HTTP-level outcome of a login attempt. -/
inductive LoginResult
  | success (status : Nat) (token : Token)
  | failure (status : Nat) (message : String)
deriving Repr, DecidableEq

/-- Modelled from the spec: the login controller
(`./controllers/auth.js` is absent from the sources). Look up the user
by identifier; fail InvalidCredential (401, one fixed message) if no
record matches; recompute the salted hash and compare, failing with
the same 401 message on mismatch; on match issue a token for the user
identifier and return 200. -/
def loginIssue (secret : String) (store : List UserRecord)
    (identifier password : String) (now lifetime : Nat) : LoginResult :=
  match findByIdentifier store identifier with
  | none => LoginResult.failure 401 invalidCredentialMessage
  | some u =>
      if hashPassword u.salt password == u.hashedPassword then
        LoginResult.success 200 (issueToken secret u.identifier now lifetime)
      else
        LoginResult.failure 401 invalidCredentialMessage

/-- Whether a login outcome is a failure response. -/
def isFailure : LoginResult → Bool
  | LoginResult.failure _ _ => true
  | LoginResult.success _ _ => false

/-- A concrete user store holding the user `alice@example.com` with
password `correct-horse` hashed under salt `s1`. -/
def aliceStore : List UserRecord :=
  [{ identifier := "alice@example.com"
     salt := "s1"
     hashedPassword := hashPassword "s1" "correct-horse" }]

/-! ## Logout and login submission (client) -/

/-- First `AuthContext` variant `logout`: `setToken(null)` and
`localStorage.removeItem` of `authToken`. It emits no HTTP request;
the returned list is the (empty) sequence of requests sent. -/
def logoutV1 (c : ClientAuthState) : ClientAuthState × List Request :=
  ({ token := none, storage := removeItem c.storage "authToken" }, [])

/-- `src/services/api.ts` `logout`: `localStorage.removeItem` of the
key `token`; no HTTP request is made. -/
def apiLogout (s : Storage) : Storage × List Request :=
  (removeItem s "token", [])

/-- `src/unnamed/part_000` `AuthProvider.logout`: call the api `logout`
then `setIsAuthenticated(false)`; no HTTP request is made. -/
def logoutV3 (st : AuthV3State) : AuthV3State × List Request :=
  ({ isAuthenticated := false, storage := (apiLogout st.storage).1 },
   (apiLogout st.storage).2)

/-- A server evolving by a step function over the requests it
receives. -/
def serverAfter {σ : Type} (step : σ → Request → σ) (s : σ)
    (reqs : List Request) : σ :=
  reqs.foldl step s

/-- The login response as `Login.handleSubmit` branches on it:
`response.ok` with `data.token`, a non-ok response with
`data.message`, or a thrown network error. -/
inductive LoginResponse
  | ok (token : String)
  | errResp (message : String)
  | networkError
deriving Repr, DecidableEq

/-- State of the `Login` component: the auth context it writes through
and its inline error message. -/
structure LoginPageState where
  auth : ClientAuthState
  error : String
deriving Repr, DecidableEq

/-- `Login.handleSubmit` of the first `index.js` variant: on
`response.ok` call `login(data.token)` (writes context state and
`localStorage`); otherwise `setError(data.message)`; on a thrown error
`setError` with the network-error message. -/
def handleSubmitV1 (st : LoginPageState) (resp : LoginResponse) : LoginPageState :=
  match resp with
  | LoginResponse.ok t => { st with auth := loginV1 st.auth t }
  | LoginResponse.errResp m => { st with error := m }
  | LoginResponse.networkError =>
      { st with error := "An error occurred. Please try again." }

/-- `src/unnamed/part_000` `AuthProvider.login`: the awaited api login
persists the token and the flag is set on success; when the awaited
call rejects (argument `none`), the exception propagates before any
state write, leaving the provider state unchanged. -/
def loginV3 (st : AuthV3State) (result : Option String) : AuthV3State :=
  match result with
  | some tok => { isAuthenticated := true, storage := setItem st.storage "token" tok }
  | none => st

/-! ## useAuth hook variants -/

/-- Result of calling a React hook that may throw. -/
inductive UseAuthOutcome (α : Type)
  | value (a : α)
  | thrown (message : String)
deriving Repr, DecidableEq

/-- Whether a hook call threw. -/
def isThrown {α : Type} : UseAuthOutcome α → Bool
  | UseAuthOutcome.thrown _ => true
  | UseAuthOutcome.value _ => false

/-- `useAuth` as defined (twice, identically) in `src/server/index.js`:
`useContext(AuthContext)` yields the provider value when a provider is
an ancestor (`some c`) and the context default `undefined` otherwise;
`if (!context) throw new Error(...)`. -/
def useAuth {α : Type} (ctx : Option α) : UseAuthOutcome α :=
  match ctx with
  | some c => UseAuthOutcome.value c
  | none => UseAuthOutcome.thrown "useAuth must be used within an AuthProvider"

/-- The context value shape of the `src/unnamed/part_000`
`AuthContext` (its login / register / logout members are behaviour,
not data; only the `isAuthenticated` field is modelled). -/
structure AuthContextV3 where
  isAuthenticated : Bool
deriving Repr, DecidableEq

/-- The `createContext` default of `src/unnamed/part_000`: the flag is
`false` and the operations are no-ops. -/
def defaultAuthContextV3 : AuthContextV3 :=
  { isAuthenticated := false }

/-- `useAuth` of `src/unnamed/part_000`: plain
`useContext(AuthContext)` — outside a provider it returns the
`createContext` default and never throws. -/
def useAuthV3 (ctx : Option AuthContextV3) : UseAuthOutcome AuthContextV3 :=
  UseAuthOutcome.value (ctx.getD defaultAuthContextV3)

/-! ## Storage lemmas -/

theorem getItem_setItem (s : Storage) (k v : String) :
    getItem (setItem s k v) k = some v := by
  simp [getItem, setItem, List.find?]

theorem find?_filter_ne (s : Storage) (k : String) :
    (s.filter (fun p => p.1 != k)).find? (fun p => p.1 == k) = none := by
  rw [List.find?_eq_none]
  intro p hp
  have hne : p.1 != k := (List.mem_filter.mp hp).2
  simpa using hne

theorem getItem_removeItem (s : Storage) (k : String) :
    getItem (removeItem s k) k = none := by
  simp [getItem, removeItem, find?_filter_ne]

theorem filter_ne_idem (s : Storage) (k : String) :
    (s.filter (fun p => p.1 != k)).filter (fun p => p.1 != k) =
      s.filter (fun p => p.1 != k) := by
  rw [List.filter_filter]
  simp

theorem setItem_setItem (s : Storage) (k v v1 : String) :
    setItem (setItem s k v) k v1 = setItem s k v1 := by
  simp [setItem, filter_ne_idem]

theorem removeItem_removeItem (s : Storage) (k : String) :
    removeItem (removeItem s k) k = removeItem s k := by
  simp [removeItem, filter_ne_idem]

/-! ## Claim theorems -/

/-- C1 counterexample: starting from an authenticated Dashboard state
(token `tok0` in context and store), a protected call returning 401
leaves the token in the context and in the Session Store, and the gate
stays Authenticated — the store is not cleared and no transition to
Anonymous happens. -/
theorem c1_counterexample :
    gateOfToken dashState0.auth.token = GateState.authenticated ∧
    (fetchItemsHandler dashState0 (ApiResponse.err 401 (some "Unauthenticated"))).auth.token
      = some "tok0" ∧
    getItem (fetchItemsHandler dashState0
        (ApiResponse.err 401 (some "Unauthenticated"))).auth.storage "authToken"
      = some "tok0" ∧
    gateOfToken (fetchItemsHandler dashState0
        (ApiResponse.err 401 (some "Unauthenticated"))).auth.token
      = GateState.authenticated := by
  refine ⟨rfl, rfl, rfl, rfl⟩

/-- C1 amended: on any non-ok response (any status, including 401) the
Dashboard only sets the inline error message (`data.message` or the
fallback); the auth context — token and Session Store — is left
unchanged, so the gate state is unchanged as well. -/
theorem c1_error_leaves_session (st : DashboardState) (status : Nat)
    (m : Option String) :
    (fetchItemsHandler st (ApiResponse.err status m)).auth = st.auth ∧
    gateOfToken (fetchItemsHandler st (ApiResponse.err status m)).auth.token
      = gateOfToken st.auth.token ∧
    (fetchItemsHandler st (ApiResponse.err status m)).error
      = m.getD "Failed to fetch items" := by
  refine ⟨rfl, rfl, rfl⟩

/-- C2 counterexample: the `src/services/api.ts` helpers for items and
transactions send no `Authorization` header at all. -/
theorem c2_counterexample :
    hasAuthHeader apiFetchItemsRequest = false ∧
    hasAuthHeader apiAddItemRequest = false ∧
    hasAuthHeader apiFetchTransactionsRequest = false := by
  refine ⟨rfl, rfl, rfl⟩

/-- C2 amended: the component-level fetches (Dashboard items,
transaction list, add-item in both variants, item delete) attach the
Bearer header with the token from the context state or read directly
from the Session Store; the `services/api.ts` helpers attach no
Authorization header. -/
theorem c2_bearer_headers :
    (∀ t : String, hasBearerFor (dashboardFetchItemsRequest t) t = true) ∧
    (∀ t : String, hasBearerFor (transactionsFetchRequest t) t = true) ∧
    (∀ t : String, hasBearerFor (addItemRequestV1 t) t = true) ∧
    (∀ (s : Storage) (t : String),
       hasBearerFor (addItemRequestV2 (setItem s "token" t)) t = true) ∧
    (∀ (s : Storage) (t id : String),
       hasBearerFor (deleteItemRequest (setItem s "token" t) id) t = true) ∧
    hasAuthHeader apiFetchItemsRequest = false ∧
    hasAuthHeader apiAddItemRequest = false ∧
    hasAuthHeader apiFetchTransactionsRequest = false := by
  refine ⟨?_, ?_, ?_, ?_, ?_, rfl, rfl, rfl⟩
  · intro t
    simp [hasBearerFor, dashboardFetchItemsRequest]
  · intro t
    simp [hasBearerFor, transactionsFetchRequest]
  · intro t
    simp [hasBearerFor, addItemRequestV1]
  · intro s t
    simp [hasBearerFor, addItemRequestV2, jsStringOfOption, getItem_setItem]
  · intro s t id
    simp [hasBearerFor, deleteItemRequest, jsStringOfOption, getItem_setItem]

/-- C3: for every issued token, `authorize` under the issuing secret
yields the subject identity strictly before the expiry instant, fails
with Unauthenticated at or after it, and in particular fails at the
expiry instant itself. -/
theorem c3_authorize_window (secret subject : String) (now0 lifetime now : Nat) :
    (now < now0 + lifetime →
       authorize secret (issueToken secret subject now0 lifetime) now
         = AuthResult.identity subject) ∧
    (now0 + lifetime ≤ now →
       authorize secret (issueToken secret subject now0 lifetime) now
         = AuthResult.unauthenticated) ∧
    authorize secret (issueToken secret subject now0 lifetime) (now0 + lifetime)
      = AuthResult.unauthenticated := by
  refine ⟨?_, ?_, ?_⟩
  · intro h
    simp [authorize, issueToken, h]
  · intro h
    simp [authorize, issueToken, Nat.not_lt.mpr h]
  · simp [authorize, issueToken]

/-- C3 witness: a token issued at 10 with lifetime 5 authorizes at 12
and is rejected at 20. -/
theorem c3_authorize_window_witness :
    (12 < 10 + 5) ∧ (10 + 5 ≤ 20) ∧
    authorize "k" (issueToken "k" "u1" 10 5) 12 = AuthResult.identity "u1" ∧
    authorize "k" (issueToken "k" "u1" 10 5) 20 = AuthResult.unauthenticated :=
  ⟨by decide, by decide,
   (c3_authorize_window "k" "u1" 10 5 12).1 (by decide),
   (c3_authorize_window "k" "u1" 10 5 20).2.1 (by decide)⟩

/-- C4: the Session Gate state at process start is derived from the
Session Store alone — Authenticated exactly when a token is present
(the first variant reads the key `authToken` in its `useState`
initializer; the `part_000` variant starts `false` and its mount
effect reads the key `token`) — and after a login persistence write, a
fresh process start (re-reading the store) computes Authenticated
without credentials. -/
theorem c4_gate_initial_state :
    (∀ s : Storage,
       gateOfToken (authProviderInitV1 s) = GateState.authenticated ↔
         (getItem s "authToken").isSome = true) ∧
    (∀ s : Storage,
       (authV3Start s).isAuthenticated = (getItem s "token").isSome) ∧
    (∀ (c : ClientAuthState) (t : String),
       gateOfToken (authProviderInitV1 (loginV1 c t).storage)
         = GateState.authenticated) ∧
    (∀ (s : Storage) (tok : String),
       (authV3Start (apiLoginPersist s tok)).isAuthenticated = true) := by
  refine ⟨?_, ?_, ?_, ?_⟩
  · intro s
    cases h : getItem s "authToken" <;>
      simp [gateOfToken, authProviderInitV1, h]
  · intro s
    rfl
  · intro c t
    simp [authProviderInitV1, loginV1, getItem_setItem, gateOfToken]
  · intro s tok
    simp [authV3Start, authV3MountEffect, apiLoginPersist, getItem_setItem]

/-- C5: Session Store round-trip and algebra, on `setAndPersistToken`
(the store set is `setAndPersistToken c (some t)`, its clear is
`setAndPersistToken c none`): set then get returns exactly the token;
clear then get returns absent; set and clear are idempotent; a later
set replaces the stored token. -/
theorem c5_session_store_algebra :
    (∀ (c : ClientAuthState) (t : String),
       sessionGet (setAndPersistToken c (some t)) = some t) ∧
    (∀ c : ClientAuthState, sessionGet (setAndPersistToken c none) = none) ∧
    (∀ (c : ClientAuthState) (t : String),
       setAndPersistToken (setAndPersistToken c (some t)) (some t) =
         setAndPersistToken c (some t)) ∧
    (∀ c : ClientAuthState,
       setAndPersistToken (setAndPersistToken c none) none =
         setAndPersistToken c none) ∧
    (∀ (c : ClientAuthState) (t t1 : String),
       setAndPersistToken (setAndPersistToken c (some t)) (some t1) =
         setAndPersistToken c (some t1)) := by
  refine ⟨?_, ?_, ?_, ?_, ?_⟩
  · intro c t
    simp [sessionGet, setAndPersistToken, getItem_setItem]
  · intro c
    simp [sessionGet, setAndPersistToken, getItem_removeItem]
  · intro c t
    simp [setAndPersistToken, setItem_setItem]
  · intro c
    simp [setAndPersistToken, removeItem_removeItem]
  · intro c t t1
    simp [setAndPersistToken, setItem_setItem]

/-- C6: every failed login attempt produces the same 401 response with
the single InvalidCredential message, so a missing user and a wrong
password are byte-identical and indistinguishable. -/
theorem c6_failure_indistinguishable (secret : String) (store : List UserRecord)
    (id1 pw1 id2 pw2 : String) (now1 life1 now2 life2 : Nat)
    (h1 : isFailure (loginIssue secret store id1 pw1 now1 life1) = true)
    (h2 : isFailure (loginIssue secret store id2 pw2 now2 life2) = true) :
    loginIssue secret store id1 pw1 now1 life1
      = loginIssue secret store id2 pw2 now2 life2 := by
  have key : ∀ (id pw : String) (now life : Nat),
      isFailure (loginIssue secret store id pw now life) = true →
      loginIssue secret store id pw now life
        = LoginResult.failure 401 invalidCredentialMessage := by
    intro id pw now life h
    cases hfind : findByIdentifier store id with
    | none => simp [loginIssue, hfind]
    | some u =>
      cases hpw : (hashPassword u.salt pw == u.hashedPassword) with
      | true => simp [loginIssue, hfind, hpw, isFailure] at h
      | false => simp [loginIssue, hfind, hpw]
  rw [key id1 pw1 now1 life1 h1, key id2 pw2 now2 life2 h2]

/-- C6 witness: on the store holding the user `alice@example.com`,
login with the right identifier and a wrong password fails, login with
an unknown identifier fails, and the two failure responses are equal
(hence their messages byte-identical). -/
theorem c6_failure_indistinguishable_witness :
    isFailure (loginIssue "sec" aliceStore "alice@example.com" "wrong" 0 3600) = true ∧
    isFailure (loginIssue "sec" aliceStore "nobody@example.com" "anything" 0 3600) = true ∧
    loginIssue "sec" aliceStore "alice@example.com" "wrong" 0 3600
      = loginIssue "sec" aliceStore "nobody@example.com" "anything" 0 3600 :=
  ⟨by decide, by decide,
   c6_failure_indistinguishable "sec" aliceStore "alice@example.com" "wrong"
     "nobody@example.com" "anything" 0 3600 0 3600 (by decide) (by decide)⟩

/-- C7: every route of the server route table that reads or mutates a
protected resource carries the verifyToken guard stage, and every
inherently public route (login, registration, static assets) carries
no guard stage at all. -/
theorem c7_guard_placement :
    serverRoutes.all routeGuardInvariant = true := by
  decide

/-- C8: logout emits no HTTP request (and the route table has no
logout endpoint), so any server state is unchanged; it only clears the
Session Store — after it, get returns absent and the gate is Anonymous
(first variant) or the `isAuthenticated` flag is `false` (`part_000`
variant). -/
theorem c8_logout_is_local :
    (∀ c : ClientAuthState,
       (logoutV1 c).2 = [] ∧
       getItem (logoutV1 c).1.storage "authToken" = none ∧
       gateOfToken (logoutV1 c).1.token = GateState.anonymous) ∧
    (∀ st : AuthV3State,
       (logoutV3 st).2 = [] ∧
       getItem (logoutV3 st).1.storage "token" = none ∧
       (logoutV3 st).1.isAuthenticated = false) ∧
    (∀ (σ : Type) (step : σ → Request → σ) (sv : σ) (c : ClientAuthState),
       serverAfter step sv (logoutV1 c).2 = sv) ∧
    serverRoutes.all (fun r => r.path != "/auth/logout") = true := by
  refine ⟨?_, ?_, ?_, ?_⟩
  · intro c
    exact ⟨rfl, getItem_removeItem c.storage "authToken", rfl⟩
  · intro st
    exact ⟨rfl, getItem_removeItem st.storage "token", rfl⟩
  · intro σ step sv c
    rfl
  · decide

/-- C9: a failed login attempt leaves the client session state
unchanged — on a non-ok response or a thrown network error,
`Login.handleSubmit` does not touch the auth context (token and
Session Store are untouched) and only sets the error message; likewise
the `part_000` `AuthProvider.login` leaves its state unchanged when
the awaited api call rejects. -/
theorem c9_failed_login_unchanged :
    (∀ (st : LoginPageState) (m : String),
       (handleSubmitV1 st (LoginResponse.errResp m)).auth = st.auth ∧
       (handleSubmitV1 st (LoginResponse.errResp m)).error = m) ∧
    (∀ st : LoginPageState,
       (handleSubmitV1 st LoginResponse.networkError).auth = st.auth ∧
       (handleSubmitV1 st LoginResponse.networkError).error
         = "An error occurred. Please try again.") ∧
    (∀ st : AuthV3State, loginV3 st none = st) := by
  refine ⟨?_, ?_, ?_⟩
  · intro st m
    exact ⟨rfl, rfl⟩
  · intro st
    exact ⟨rfl, rfl⟩
  · intro st
    rfl

/-- C10 counterexample: the `src/unnamed/part_000` `useAuth`, called
with no `AuthProvider` ancestor (context absent), does not throw — it
returns the `createContext` default value. -/
theorem c10_counterexample :
    useAuthV3 none = UseAuthOutcome.value defaultAuthContextV3 ∧
    isThrown (useAuthV3 none) = false := by
  refine ⟨rfl, rfl⟩

/-- C10 amended: the two `useAuth` definitions in `src/server/index.js`
throw the provider-requirement error exactly when no provider is an
ancestor; the `src/unnamed/part_000` variant instead returns the
`createContext` default (`isAuthenticated = false`) and never throws. -/
theorem c10_useAuth_behaviour :
    (∀ (α : Type) (ctx : Option α),
       useAuth ctx = UseAuthOutcome.thrown "useAuth must be used within an AuthProvider"
         ↔ ctx = none) ∧
    (∀ (α : Type) (c : α), useAuth (some c) = UseAuthOutcome.value c) ∧
    (∀ ctx : Option AuthContextV3, isThrown (useAuthV3 ctx) = false) ∧
    useAuthV3 none = UseAuthOutcome.value defaultAuthContextV3 := by
  refine ⟨?_, ?_, ?_, rfl⟩
  · intro α ctx
    cases ctx <;> simp [useAuth]
  · intro α c
    rfl
  · intro ctx
    rfl
